import Mathlib

/-!
Verification development for the CoreBase Rust bindings
(src/core/bindings/rust): a shallow embedding of the connection
registry (network.rs), the system monitor (monitor.rs) and the global
initialization latch (lib.rs), with theorems settling the frozen
claims about them.

Modelling conventions:
* `f64` fields are modelled as exact rationals `ℚ` (the algorithms use
  only +, -, *, /, max and comparisons; no claim depends on rounding).
* The native C collaborators (`cba_network_*`, `cba_monitor_*`,
  `cba_error_handler_*`) are modelled as oracle records passed to the
  operations; a pointer-returning call becomes `Option`, a status-code
  call becomes `Int` (0 = success).
* `HashMap<String, NetworkConnection>` becomes an association list with
  the usual replace-on-insert / remove-one semantics; the mutex always
  succeeds (single-threaded embedding, no poisoning).
* `CString::new` (`to_c_string`) fails exactly on interior NUL bytes;
  `String::from_utf8` is embedded as a full UTF-8 decoder over the
  byte list.
-/

namespace CoreBase

/-- Error taxonomy of `error.rs` (`CoreBaseError`). -/
inductive CoreBaseError where
  | InitializationFailed (msg : String)
  | ShutdownFailed (msg : String)
  | InvalidString (msg : String)
  | ConfigError (msg : String)
  | NetworkError (msg : String)
  | MonitorError (msg : String)
  | OperationFailed (msg : String)
  | InvalidParameter (msg : String)
  | ResourceNotFound (msg : String)
  | PermissionDenied (msg : String)
  | Timeout (msg : String)
  | Unknown (msg : String)
deriving DecidableEq, Repr

/-- Result type of the bindings (`CoreBaseResult<T>`). -/
abbrev CoreBaseResult (α : Type) := Except CoreBaseError α

/-- Embedding of `to_c_string` (lib.rs): `CString::new` fails exactly
when the string holds an interior NUL byte. -/
def toCString (s : String) : CoreBaseResult String :=
  if (Char.ofNat 0) ∈ s.toList then
    .error (.InvalidString "nul byte found")
  else
    .ok s

/-- Whether a byte is a UTF-8 continuation byte (`0x80..=0xBF`). -/
def utf8Cont (b : Nat) : Bool := 0x80 ≤ b && b ≤ 0xBF

/-- Embedding of `String::from_utf8` validation: decodes a byte list to
its characters, rejecting malformed, overlong, surrogate and
out-of-range sequences exactly as the UTF-8 standard does. -/
def utf8Decode : List Nat → Option (List Char)
  | [] => some []
  | b0 :: rest =>
    if b0 < 0x80 then
      (utf8Decode rest).map (fun cs => Char.ofNat b0 :: cs)
    else
      match rest with
      | [] => none
      | b1 :: rest1 =>
        if 0xC2 ≤ b0 && b0 ≤ 0xDF then
          if utf8Cont b1 then
            (utf8Decode rest1).map
              (fun cs => Char.ofNat ((b0 - 0xC0) * 0x40 + (b1 - 0x80)) :: cs)
          else none
        else
          match rest1 with
          | [] => none
          | b2 :: rest2 =>
            if b0 = 0xE0 then
              if (0xA0 ≤ b1 && b1 ≤ 0xBF) && utf8Cont b2 then
                (utf8Decode rest2).map (fun cs =>
                  Char.ofNat ((b0 - 0xE0) * 0x1000 + (b1 - 0x80) * 0x40 + (b2 - 0x80)) :: cs)
              else none
            else if 0xE1 ≤ b0 && b0 ≤ 0xEC then
              if utf8Cont b1 && utf8Cont b2 then
                (utf8Decode rest2).map (fun cs =>
                  Char.ofNat ((b0 - 0xE0) * 0x1000 + (b1 - 0x80) * 0x40 + (b2 - 0x80)) :: cs)
              else none
            else if b0 = 0xED then
              if (0x80 ≤ b1 && b1 ≤ 0x9F) && utf8Cont b2 then
                (utf8Decode rest2).map (fun cs =>
                  Char.ofNat ((b0 - 0xE0) * 0x1000 + (b1 - 0x80) * 0x40 + (b2 - 0x80)) :: cs)
              else none
            else if 0xEE ≤ b0 && b0 ≤ 0xEF then
              if utf8Cont b1 && utf8Cont b2 then
                (utf8Decode rest2).map (fun cs =>
                  Char.ofNat ((b0 - 0xE0) * 0x1000 + (b1 - 0x80) * 0x40 + (b2 - 0x80)) :: cs)
              else none
            else
              match rest2 with
              | [] => none
              | b3 :: rest3 =>
                if b0 = 0xF0 then
                  if ((0x90 ≤ b1 && b1 ≤ 0xBF) && utf8Cont b2) && utf8Cont b3 then
                    (utf8Decode rest3).map (fun cs =>
                      Char.ofNat ((b0 - 0xF0) * 0x40000 + (b1 - 0x80) * 0x1000
                        + (b2 - 0x80) * 0x40 + (b3 - 0x80)) :: cs)
                  else none
                else if 0xF1 ≤ b0 && b0 ≤ 0xF3 then
                  if (utf8Cont b1 && utf8Cont b2) && utf8Cont b3 then
                    (utf8Decode rest3).map (fun cs =>
                      Char.ofNat ((b0 - 0xF0) * 0x40000 + (b1 - 0x80) * 0x1000
                        + (b2 - 0x80) * 0x40 + (b3 - 0x80)) :: cs)
                  else none
                else if b0 = 0xF4 then
                  if ((0x80 ≤ b1 && b1 ≤ 0x8F) && utf8Cont b2) && utf8Cont b3 then
                    (utf8Decode rest3).map (fun cs =>
                      Char.ofNat ((b0 - 0xF0) * 0x40000 + (b1 - 0x80) * 0x1000
                        + (b2 - 0x80) * 0x40 + (b3 - 0x80)) :: cs)
                  else none
                else none

/-- Decoded byte payload as a string (`String::from_utf8` on success). -/
def utf8DecodeString (bs : List Nat) : Option String :=
  (utf8Decode bs).map String.mk

/-- Protocol enum of network.rs (`NetworkProtocol`). -/
inductive NetworkProtocol where
  | TCP | UDP | HTTP | HTTPS | WebSocket | MQTT | AMQP | GRPC | Custom
deriving DecidableEq, Repr

/-- Connection state enum of network.rs (`ConnectionState`). -/
inductive ConnectionState where
  | Disconnected | Connecting | Connected | Disconnecting | Error
deriving DecidableEq, Repr

/-- Configuration record of network.rs (`NetworkConfig`); the two
hash maps become association lists. -/
structure NetworkConfig where
  host : String
  port : Nat
  protocol : NetworkProtocol
  timeoutMs : Nat
  maxRetries : Nat
  retryDelayMs : Nat
  useSsl : Bool
  verifySsl : Bool
  username : Option String
  password : Option String
  headers : List (String × String)
  customParams : List (String × String)
deriving DecidableEq, Repr

/-- Message record of network.rs (`NetworkMessage`); `data` is the raw
byte vector. -/
structure NetworkMessage where
  data : List Nat
  topic : Option String
  headers : List (String × String)
  timestamp : Nat
  sender : Option String
deriving DecidableEq, Repr

/-- Connection handle of network.rs (`NetworkConnection`). -/
structure NetworkConnection where
  id : String
  config : NetworkConfig
  state : ConnectionState
deriving DecidableEq, Repr

/-- Oracle for the native transport layer (the `cba_network_*`
externs): `createConnection` returns the fresh id or `none` for a null
pointer; `sendMessage`/`closeConnection` return the C status code. -/
structure NativeTransport where
  createConnection : String → Nat → NetworkProtocol → Option String
  sendMessage : String → String → Int
  closeConnection : String → Int

/-- Embedding of `NetworkConnection::send`: decode the payload as
UTF-8, marshal id and text to C strings, then call the transport;
status 0 is success, anything else is a NetworkError. -/
def NetworkConnection.send (t : NativeTransport) (c : NetworkConnection)
    (message : NetworkMessage) : CoreBaseResult Unit :=
  match utf8DecodeString message.data with
  | none => .error (.NetworkError "Invalid message data")
  | some messageStr =>
    match toCString c.id with
    | .error e => .error e
    | .ok cConnectionId =>
      match toCString messageStr with
      | .error e => .error e
      | .ok cMessage =>
        if t.sendMessage cConnectionId cMessage = 0 then .ok ()
        else .error (.NetworkError "Failed to send message")

/-- Embedding of `NetworkConnection::close`: marshal the id, call the
transport close; status 0 is success. -/
def NetworkConnection.close (t : NativeTransport) (c : NetworkConnection) :
    CoreBaseResult Unit :=
  match toCString c.id with
  | .error e => .error e
  | .ok cConnectionId =>
    if t.closeConnection cConnectionId = 0 then .ok ()
    else .error (.NetworkError "Failed to close connection")

/-- Connection map of the manager: association list keyed by id. -/
abbrev ConnMap := List (String × NetworkConnection)

/-- Lookup in the connection map (`HashMap::get`). -/
def lookupKey (k : String) : ConnMap → Option NetworkConnection
  | [] => none
  | e :: rest => if e.1 = k then some e.2 else lookupKey k rest

/-- Insert in the connection map (`HashMap::insert`): replaces the
entry of an existing key, otherwise appends. -/
def insertEntry (k : String) (v : NetworkConnection) : ConnMap → ConnMap
  | [] => [(k, v)]
  | e :: rest => if e.1 = k then (k, v) :: rest else e :: insertEntry k v rest

/-- Remove from the connection map (`HashMap::remove`): drops the one
entry of the key, if present. -/
def eraseKey (k : String) : ConnMap → ConnMap
  | [] => []
  | e :: rest => if e.1 = k then rest else e :: eraseKey k rest

/-- Manager state of network.rs (`NetworkManager`). -/
structure NetworkManager where
  initialized : Bool
  connections : ConnMap
deriving DecidableEq, Repr

/-- Embedding of `NetworkManager::new`. -/
def NetworkManager.new : NetworkManager :=
  { initialized := true, connections := [] }

/-- Embedding of `NetworkManager::get_connection`: lock, lookup,
clone out; absent id is ResourceNotFound. -/
def NetworkManager.getConnection (mgr : NetworkManager) (connectionId : String) :
    CoreBaseResult NetworkConnection :=
  match lookupKey connectionId mgr.connections with
  | some c => .ok c
  | none => .error (.ResourceNotFound ("Connection not found: " ++ connectionId))

/-- Embedding of `NetworkManager::list_connections`: snapshot of the
map values. -/
def NetworkManager.listConnections (mgr : NetworkManager) :
    CoreBaseResult (List NetworkConnection) :=
  .ok (mgr.connections.map Prod.snd)

/-- Embedding of `NetworkManager::connection_count`. -/
def NetworkManager.connectionCount (mgr : NetworkManager) : Nat :=
  mgr.connections.length

/-- Embedding of `NetworkManager::create_connection`: guard on the
initialized flag, marshal the host, ask the transport for an id (null
pointer = NetworkError, registry untouched), then register and return
a copy of the new `Connected` connection. -/
def NetworkManager.createConnection (t : NativeTransport)
    (config : NetworkConfig) (mgr : NetworkManager) :
    CoreBaseResult NetworkConnection × NetworkManager :=
  if !mgr.initialized then
    (.error (.OperationFailed "NetworkManager not initialized"), mgr)
  else
    match toCString config.host with
    | .error e => (.error e, mgr)
    | .ok cHost =>
      match t.createConnection cHost config.port config.protocol with
      | none => (.error (.NetworkError "Failed to create network connection"), mgr)
      | some connectionId =>
        let connection : NetworkConnection :=
          { id := connectionId, config := config, state := .Connected }
        (.ok connection,
         { mgr with connections := insertEntry connectionId connection mgr.connections })

/-- Embedding of `NetworkManager::close_connection`: look the id up
(ResourceNotFound when absent), close via the transport, and remove
the entry only after a successful transport close. -/
def NetworkManager.closeConnection (t : NativeTransport)
    (connectionId : String) (mgr : NetworkManager) :
    CoreBaseResult Unit × NetworkManager :=
  match lookupKey connectionId mgr.connections with
  | some connection =>
    match NetworkConnection.close t connection with
    | .ok _ =>
      (.ok (), { mgr with connections := eraseKey connectionId mgr.connections })
    | .error e => (.error e, mgr)
  | none =>
    (.error (.ResourceNotFound ("Connection not found: " ++ connectionId)), mgr)

/-- Embedding of `NetworkManager::close_all_connections`: snapshot the
current ids, close each one swallowing individual results, return Ok. -/
def NetworkManager.closeAllConnections (t : NativeTransport)
    (mgr : NetworkManager) : CoreBaseResult Unit × NetworkManager :=
  let connectionIds := mgr.connections.map Prod.fst
  (.ok (),
   connectionIds.foldl (fun acc cid => (NetworkManager.closeConnection t cid acc).2) mgr)

/-- Embedding of `NetworkManager::broadcast_message`: snapshot the
connections, send to each, collect the ids whose send failed. -/
def NetworkManager.broadcastMessage (t : NativeTransport)
    (message : NetworkMessage) (mgr : NetworkManager) :
    CoreBaseResult (List String) × NetworkManager :=
  let conns := mgr.connections.map Prod.snd
  (.ok (conns.foldl
      (fun failed c =>
        match NetworkConnection.send t c message with
        | .ok _ => failed
        | .error _ => failed ++ [c.id]) []),
   mgr)

/-- Resource snapshot of monitor.rs (`SystemResources`); `f64` fields
are exact rationals. -/
structure SystemResources where
  cpuUsagePercent : ℚ
  availableMemoryBytes : ℚ
  totalMemoryBytes : ℚ
  availableDiskBytes : ℚ
  totalDiskBytes : ℚ
  networkUsagePercent : ℚ
  gpuUsagePercent : ℚ
  timestamp : Nat
deriving DecidableEq, Repr

/-- Embedding of `SystemResources::memory_usage_percent`. -/
def SystemResources.memoryUsagePercent (r : SystemResources) : ℚ :=
  if r.totalMemoryBytes > 0 then
    ((r.totalMemoryBytes - r.availableMemoryBytes) / r.totalMemoryBytes) * 100
  else 0

/-- Embedding of `SystemResources::disk_usage_percent`. -/
def SystemResources.diskUsagePercent (r : SystemResources) : ℚ :=
  if r.totalDiskBytes > 0 then
    ((r.totalDiskBytes - r.availableDiskBytes) / r.totalDiskBytes) * 100
  else 0

/-- History unit of monitor.rs (`MonitoringDataPoint`). -/
structure MonitoringDataPoint where
  timestamp : Nat
  cpuUsage : ℚ
  memoryUsage : ℚ
  diskUsage : ℚ
  networkUsage : ℚ
  gpuUsage : ℚ
deriving DecidableEq, Repr

/-- Embedding of `From<&SystemResources> for MonitoringDataPoint`. -/
def MonitoringDataPoint.fromResources (r : SystemResources) : MonitoringDataPoint :=
  { timestamp := r.timestamp
    cpuUsage := r.cpuUsagePercent
    memoryUsage := r.memoryUsagePercent
    diskUsage := r.diskUsagePercent
    networkUsage := r.networkUsagePercent
    gpuUsage := r.gpuUsagePercent }

/-- Monitoring configuration of monitor.rs (`MonitoringConfig`); the
update interval is in milliseconds (its value is irrelevant to the
claims settled here). -/
structure MonitoringConfig where
  updateIntervalMs : Nat
  historySize : Nat
  enableCpuMonitoring : Bool
  enableMemoryMonitoring : Bool
  enableDiskMonitoring : Bool
  enableNetworkMonitoring : Bool
  enableGpuMonitoring : Bool
  cpuThreshold : ℚ
  memoryThreshold : ℚ
  diskThreshold : ℚ
  networkThreshold : ℚ
  gpuThreshold : ℚ
deriving DecidableEq, Repr

/-- Embedding of `MonitoringConfig::default`. -/
def MonitoringConfig.default : MonitoringConfig :=
  { updateIntervalMs := 1000
    historySize := 100
    enableCpuMonitoring := true
    enableMemoryMonitoring := true
    enableDiskMonitoring := true
    enableNetworkMonitoring := true
    enableGpuMonitoring := true
    cpuThreshold := 80
    memoryThreshold := 85
    diskThreshold := 90
    networkThreshold := 80
    gpuThreshold := 80 }

/-- Monitor state of monitor.rs (`SystemMonitor`); the `VecDeque`
history has its front at the list head, its back at the list end.
The `last_update: Option<Instant>` field (real time) is omitted: no
claim settled here depends on it. -/
structure SystemMonitor where
  initialized : Bool
  config : MonitoringConfig
  history : List MonitoringDataPoint
deriving DecidableEq, Repr

/-- Embedding of `SystemMonitor::new`. -/
def SystemMonitor.new : SystemMonitor :=
  { initialized := true, config := MonitoringConfig.default, history := [] }

/-- Embedding of the eviction loop
`while history.len() > history_size { history.pop_front(); }`. -/
def evictFront (cap : Nat) : List MonitoringDataPoint → List MonitoringDataPoint
  | [] => []
  | p :: rest =>
    if rest.length + 1 > cap then evictFront cap rest else p :: rest

/-- Embedding of `SystemMonitor::add_to_history`: push the derived
data point at the back, then evict from the front down to the
configured capacity. -/
def SystemMonitor.addToHistory (m : SystemMonitor) (resources : SystemResources) :
    SystemMonitor :=
  { m with history :=
      (evictFront m.config.historySize
        (m.history ++ [MonitoringDataPoint.fromResources resources])) }

/-- Embedding of `SystemMonitor::set_config`: install the new
configuration, then evict from the front down to its capacity. -/
def SystemMonitor.setConfig (m : SystemMonitor) (config : MonitoringConfig) :
    SystemMonitor :=
  { m with config := config, history := evictFront config.historySize m.history }

/-- Embedding of `SystemMonitor::clear_history`. -/
def SystemMonitor.clearHistory (m : SystemMonitor) : SystemMonitor :=
  { m with history := [] }

/-- Oracle for the native sampler (the `cba_monitor_*` externs): each
usage query yields a value, the memory/disk queries yield a status
code plus the two out-parameters (available, total). -/
structure NativeSampler where
  cpuUsage : ℚ
  memoryUsage : Int × ℚ × ℚ
  diskUsage : Int × ℚ × ℚ
  networkUsage : ℚ
  gpuUsage : ℚ

/-- Embedding of `SystemMonitor::get_system_resources`: guard on the
initialized flag, build a zeroed snapshot stamped `now`, fill each
category enabled in the configuration from the sampler (memory/disk
only on status 0), append the derived data point to history. -/
def SystemMonitor.getSystemResources (sam : NativeSampler) (now : Nat)
    (m : SystemMonitor) : CoreBaseResult SystemResources × SystemMonitor :=
  if !m.initialized then
    (.error (.OperationFailed "SystemMonitor not initialized"), m)
  else
    let r0 : SystemResources :=
      { cpuUsagePercent := 0, availableMemoryBytes := 0, totalMemoryBytes := 0
        availableDiskBytes := 0, totalDiskBytes := 0, networkUsagePercent := 0
        gpuUsagePercent := 0, timestamp := now }
    let r1 := if m.config.enableCpuMonitoring then
        { r0 with cpuUsagePercent := sam.cpuUsage } else r0
    let r2 := if m.config.enableMemoryMonitoring then
        (if sam.memoryUsage.1 = 0 then
          { r1 with availableMemoryBytes := sam.memoryUsage.2.1,
                    totalMemoryBytes := sam.memoryUsage.2.2 }
         else r1)
      else r1
    let r3 := if m.config.enableDiskMonitoring then
        (if sam.diskUsage.1 = 0 then
          { r2 with availableDiskBytes := sam.diskUsage.2.1,
                    totalDiskBytes := sam.diskUsage.2.2 }
         else r2)
      else r2
    let r4 := if m.config.enableNetworkMonitoring then
        { r3 with networkUsagePercent := sam.networkUsage } else r3
    let r5 := if m.config.enableGpuMonitoring then
        { r4 with gpuUsagePercent := sam.gpuUsage } else r4
    let r6 := { r5 with timestamp := now }
    (.ok r6, m.addToHistory r6)

/-- Resource categories, in the fixed order their alerts are produced
by `check_thresholds`. -/
inductive ResourceCategory where
  | cpu | memory | disk | network | gpu
deriving DecidableEq, Repr

/-- One alert produced by `check_thresholds`: the embedding keeps the
formatted message's content (category, measured value, threshold)
instead of the rendered string. -/
structure Alert where
  category : ResourceCategory
  value : ℚ
  threshold : ℚ
deriving DecidableEq, Repr

/-- Embedding of `SystemMonitor::check_thresholds`: one alert per
enabled category whose measured percentage strictly exceeds its
threshold, pushed in the order CPU, memory, disk, network, GPU. -/
def SystemMonitor.checkThresholds (m : SystemMonitor) (resources : SystemResources) :
    List Alert :=
  (if m.config.enableCpuMonitoring
      ∧ resources.cpuUsagePercent > m.config.cpuThreshold then
    [{ category := .cpu, value := resources.cpuUsagePercent
       threshold := m.config.cpuThreshold }]
   else []) ++
  (if m.config.enableMemoryMonitoring
      ∧ resources.memoryUsagePercent > m.config.memoryThreshold then
    [{ category := .memory, value := resources.memoryUsagePercent
       threshold := m.config.memoryThreshold }]
   else []) ++
  (if m.config.enableDiskMonitoring
      ∧ resources.diskUsagePercent > m.config.diskThreshold then
    [{ category := .disk, value := resources.diskUsagePercent
       threshold := m.config.diskThreshold }]
   else []) ++
  (if m.config.enableNetworkMonitoring
      ∧ resources.networkUsagePercent > m.config.networkThreshold then
    [{ category := .network, value := resources.networkUsagePercent
       threshold := m.config.networkThreshold }]
   else []) ++
  (if m.config.enableGpuMonitoring
      ∧ resources.gpuUsagePercent > m.config.gpuThreshold then
    [{ category := .gpu, value := resources.gpuUsagePercent
       threshold := m.config.gpuThreshold }]
   else [])

/-- Fold step of `get_average_usage`: add each field of a point into
the accumulator. -/
def avgStep (acc p : MonitoringDataPoint) : MonitoringDataPoint :=
  { acc with
    cpuUsage := acc.cpuUsage + p.cpuUsage
    memoryUsage := acc.memoryUsage + p.memoryUsage
    diskUsage := acc.diskUsage + p.diskUsage
    networkUsage := acc.networkUsage + p.networkUsage
    gpuUsage := acc.gpuUsage + p.gpuUsage }

/-- Embedding of `SystemMonitor::get_average_usage`: `None` on empty
history; otherwise sum every field over the history starting from a
zeroed record stamped `now`, then divide each field by the count. -/
def SystemMonitor.getAverageUsage (now : Nat) (m : SystemMonitor) :
    Option MonitoringDataPoint :=
  if m.history.isEmpty then none
  else
    let count : ℚ := (m.history.length : ℚ)
    let acc0 : MonitoringDataPoint :=
      { timestamp := now, cpuUsage := 0, memoryUsage := 0, diskUsage := 0
        networkUsage := 0, gpuUsage := 0 }
    let s := m.history.foldl avgStep acc0
    some { s with
      cpuUsage := s.cpuUsage / count
      memoryUsage := s.memoryUsage / count
      diskUsage := s.diskUsage / count
      networkUsage := s.networkUsage / count
      gpuUsage := s.gpuUsage / count }

/-- Fold step of `get_peak_usage`: take the field-wise maximum of the
accumulator and a point. -/
def peakStep (acc p : MonitoringDataPoint) : MonitoringDataPoint :=
  { acc with
    cpuUsage := max acc.cpuUsage p.cpuUsage
    memoryUsage := max acc.memoryUsage p.memoryUsage
    diskUsage := max acc.diskUsage p.diskUsage
    networkUsage := max acc.networkUsage p.networkUsage
    gpuUsage := max acc.gpuUsage p.gpuUsage }

/-- Embedding of `SystemMonitor::get_peak_usage`: `None` on empty
history; otherwise fold the field-wise maximum over the history
starting from a zeroed record stamped `now`. -/
def SystemMonitor.getPeakUsage (now : Nat) (m : SystemMonitor) :
    Option MonitoringDataPoint :=
  if m.history.isEmpty then none
  else
    let acc0 : MonitoringDataPoint :=
      { timestamp := now, cpuUsage := 0, memoryUsage := 0, diskUsage := 0
        networkUsage := 0, gpuUsage := 0 }
    some (m.history.foldl peakStep acc0)

/-- Global latch state of lib.rs: `INIT: Once` (whether the one-time
closure has completed) and `INITIALIZED: bool`. -/
structure GlobalState where
  onceDone : Bool
  initialized : Bool
deriving DecidableEq, Repr

/-- Process start state: the `Once` has not fired, `INITIALIZED` is
false. -/
def initialState : GlobalState := { onceDone := false, initialized := false }

/-- Embedding of `initialize` (lib.rs): `result` starts `Ok(())`;
`INIT.call_once` runs the closure only the first time, which calls the
two native init routines (status codes `errInit`, `netInit`) and
either sets `INITIALIZED` or overwrites `result` with
InitializationFailed. Later calls skip the closure and return the
untouched `Ok(())`. -/
def initializeLib (errInit netInit : Int) (s : GlobalState) :
    CoreBaseResult Unit × GlobalState :=
  if s.onceDone then (.ok (), s)
  else if errInit = 0 ∧ netInit = 0 then
    (.ok (), { onceDone := true, initialized := true })
  else
    (.error (.InitializationFailed "Failed to initialize CoreBase components"),
     { onceDone := true, initialized := false })

/-- Embedding of `shutdown` (lib.rs): when initialized, run the native
shutdown (status `res`), clearing `INITIALIZED` on success; otherwise
return Ok. The `Once` is never reset. -/
def shutdown (res : Int) (s : GlobalState) : CoreBaseResult Unit × GlobalState :=
  if s.initialized then
    if res = 0 then (.ok (), { s with initialized := false })
    else (.error (.ShutdownFailed "Failed to shutdown CoreBase components"), s)
  else (.ok (), s)

/-- Embedding of `is_initialized` (lib.rs). -/
def isInitialized (s : GlobalState) : Bool := s.initialized

/-- One process-wide lifecycle call: an `initialize` (with the two
native status codes it would observe) or a `shutdown` (with its native
status code). -/
inductive GlobalOp where
  | initCall (errInit netInit : Int)
  | shutdownCall (res : Int)

/-- Run a sequence of lifecycle calls, threading the global state. -/
def runOps (ops : List GlobalOp) (s : GlobalState) : GlobalState :=
  ops.foldl
    (fun st op =>
      match op with
      | .initCall e n => (initializeLib e n st).2
      | .shutdownCall r => (shutdown r st).2) s

/-- Whether the transport close of a connection succeeds (the branch
on `connection.close()` inside `close_connection`). -/
def closeSucceeds (t : NativeTransport) (c : NetworkConnection) : Bool :=
  match NetworkConnection.close t c with
  | .ok _ => true
  | .error _ => false

/-- Whether sending a message on a connection fails (the branch on
`connection.send(message)` inside `broadcast_message`). -/
def sendFails (t : NativeTransport) (message : NetworkMessage)
    (c : NetworkConnection) : Bool :=
  match NetworkConnection.send t c message with
  | .ok _ => false
  | .error _ => true

/-- Connection-map effect of one `close_connection` call (the second
component of `NetworkManager.closeConnection` projected to the map). -/
def mapCloseStep (t : NativeTransport) (connectionId : String) (conns : ConnMap) :
    ConnMap :=
  match lookupKey connectionId conns with
  | some connection =>
    match NetworkConnection.close t connection with
    | .ok _ => eraseKey connectionId conns
    | .error _ => conns
  | none => conns

/-- Connection-map effect of closing a list of ids in order (the loop
of `close_all_connections` projected to the map). -/
def mapCloseFold (t : NativeTransport) (ids : List String) (conns : ConnMap) :
    ConnMap :=
  ids.foldl (fun acc cid => mapCloseStep t cid acc) conns

/-- Enable flag of a resource category in a monitoring configuration. -/
def categoryEnabled (cfg : MonitoringConfig) : ResourceCategory → Bool
  | .cpu => cfg.enableCpuMonitoring
  | .memory => cfg.enableMemoryMonitoring
  | .disk => cfg.enableDiskMonitoring
  | .network => cfg.enableNetworkMonitoring
  | .gpu => cfg.enableGpuMonitoring

/-- Threshold of a resource category in a monitoring configuration. -/
def categoryThreshold (cfg : MonitoringConfig) : ResourceCategory → ℚ
  | .cpu => cfg.cpuThreshold
  | .memory => cfg.memoryThreshold
  | .disk => cfg.diskThreshold
  | .network => cfg.networkThreshold
  | .gpu => cfg.gpuThreshold

/-- Measured percentage of a resource category in a snapshot (memory
and disk are the derived percentages). -/
def measuredPercent (r : SystemResources) : ResourceCategory → ℚ
  | .cpu => r.cpuUsagePercent
  | .memory => r.memoryUsagePercent
  | .disk => r.diskUsagePercent
  | .network => r.networkUsagePercent
  | .gpu => r.gpuUsagePercent

/-- Spec-side description of the threshold evaluator (§4.4 of the
spec, for the refinement theorem): one alert for each enabled category
whose measured percentage strictly exceeds its threshold, in the fixed
order CPU, memory, disk, network, GPU. -/
def checkThresholdsSpec (cfg : MonitoringConfig) (r : SystemResources) : List Alert :=
  ([ResourceCategory.cpu, .memory, .disk, .network, .gpu].filter
      (fun c => categoryEnabled cfg c && decide (measuredPercent r c > categoryThreshold cfg c))).map
    (fun c => { category := c, value := measuredPercent r c
                threshold := categoryThreshold cfg c })

/-- Characterization of one field of the (amended) peak record over a
list of field values: an upper bound of the values that is nonnegative
and is either 0 or one of the values — that is, the maximum of 0 and
the values. -/
def peakFieldSpec (vals : List ℚ) (v : ℚ) : Prop :=
  (∀ x ∈ vals, x ≤ v) ∧ 0 ≤ v ∧ (v = 0 ∨ v ∈ vals)

/-- Inserting a sequence of snapshots into the history one by one
(repeated `add_to_history` calls). -/
def addAll (m : SystemMonitor) (rs : List SystemResources) : SystemMonitor :=
  rs.foldl SystemMonitor.addToHistory m

/-- Fixture: a minimal TCP configuration. -/
def cfgFixture : NetworkConfig :=
  { host := "h", port := 1, protocol := .TCP, timeoutMs := 5000, maxRetries := 3
    retryDelayMs := 1000, useSsl := false, verifySsl := true, username := none
    password := none, headers := [], customParams := [] }

/-- Fixture: a connected connection with id "a". -/
def connAlpha : NetworkConnection :=
  { id := "a", config := cfgFixture, state := .Connected }

/-- Fixture: a connected connection with id "b". -/
def connBeta : NetworkConnection :=
  { id := "b", config := cfgFixture, state := .Connected }

/-- Fixture: a transport whose close always fails with status 1. -/
def tCloseFail : NativeTransport :=
  { createConnection := fun _ _ _ => some "a", sendMessage := fun _ _ => 0
    closeConnection := fun _ => 1 }

/-- Fixture: a transport that creates id "a" and succeeds everywhere. -/
def tCreateAlpha : NativeTransport :=
  { createConnection := fun _ _ _ => some "a", sendMessage := fun _ _ => 0
    closeConnection := fun _ => 0 }

/-- Fixture: a transport whose connection creation returns null. -/
def tCreateNone : NativeTransport :=
  { createConnection := fun _ _ _ => none, sendMessage := fun _ _ => 0
    closeConnection := fun _ => 0 }

/-- Fixture: a transport whose send fails exactly on connection "b". -/
def tSendBeta : NativeTransport :=
  { createConnection := fun _ _ _ => none
    sendMessage := fun cid _ => if cid = "b" then 1 else 0
    closeConnection := fun _ => 0 }

/-- Fixture: a manager with the empty registry. -/
def mgrEmpty : NetworkManager := { initialized := true, connections := [] }

/-- Fixture: a manager holding only connection "a". -/
def mgrOne : NetworkManager :=
  { initialized := true, connections := [("a", connAlpha)] }

/-- Fixture: a manager holding connections "a" and "b". -/
def mgrPair : NetworkManager :=
  { initialized := true, connections := [("a", connAlpha), ("b", connBeta)] }

/-- Fixture: the text message "hi". -/
def msgHi : NetworkMessage :=
  { data := [104, 105], topic := none, headers := [], timestamp := 0, sender := none }

/-- Fixture: a sample with cpu 10 and memory 20. -/
def dpLow : MonitoringDataPoint :=
  { timestamp := 1, cpuUsage := 10, memoryUsage := 20, diskUsage := 0
    networkUsage := 0, gpuUsage := 0 }

/-- Fixture: a sample with cpu 30 and memory 40. -/
def dpHigh : MonitoringDataPoint :=
  { timestamp := 2, cpuUsage := 30, memoryUsage := 40, diskUsage := 0
    networkUsage := 0, gpuUsage := 0 }

/-- Fixture: a sample whose cpu value is negative. -/
def dpNeg : MonitoringDataPoint :=
  { timestamp := 3, cpuUsage := -1, memoryUsage := 0, diskUsage := 0
    networkUsage := 0, gpuUsage := 0 }

/-- Fixture: a monitor whose history is the two-sample sequence. -/
def monPair : SystemMonitor :=
  { initialized := true, config := MonitoringConfig.default, history := [dpLow, dpHigh] }

/-- Fixture: a monitor whose single history sample has negative cpu. -/
def monNeg : SystemMonitor :=
  { initialized := true, config := MonitoringConfig.default, history := [dpNeg] }

/-- Fixture: a snapshot with memory 2e9 of 8e9 bytes available. -/
def resSeventyFive : SystemResources :=
  { cpuUsagePercent := 0, availableMemoryBytes := 2000000000
    totalMemoryBytes := 8000000000, availableDiskBytes := 0, totalDiskBytes := 0
    networkUsagePercent := 0, gpuUsagePercent := 0, timestamp := 0 }

/-- Fixture: a snapshot with zero total memory and disk. -/
def resZeroTotal : SystemResources :=
  { cpuUsagePercent := 0, availableMemoryBytes := 0, totalMemoryBytes := 0
    availableDiskBytes := 0, totalDiskBytes := 0, networkUsagePercent := 0
    gpuUsagePercent := 0, timestamp := 0 }

/-- Fixture: a sampler returning fixed values, all statuses 0. -/
def samFixture : NativeSampler :=
  { cpuUsage := 50, memoryUsage := (0, 2000000000, 8000000000)
    diskUsage := (0, 100, 500), networkUsage := 25, gpuUsage := 75 }

/-- C9: for every snapshot, `memory_usage_percent` equals
`(total - available) / total * 100` when the total is positive and 0
otherwise (no division-by-zero fault is possible in the embedding, the
guard short-circuits it), and the same formula and guard hold for
`disk_usage_percent`. -/
theorem memory_disk_percent_spec (r : SystemResources) :
    (0 < r.totalMemoryBytes →
      r.memoryUsagePercent
        = ((r.totalMemoryBytes - r.availableMemoryBytes) / r.totalMemoryBytes) * 100) ∧
    (r.totalMemoryBytes ≤ 0 → r.memoryUsagePercent = 0) ∧
    (0 < r.totalDiskBytes →
      r.diskUsagePercent
        = ((r.totalDiskBytes - r.availableDiskBytes) / r.totalDiskBytes) * 100) ∧
    (r.totalDiskBytes ≤ 0 → r.diskUsagePercent = 0) := by
  refine ⟨fun h => ?_, fun h => ?_, fun h => ?_, fun h => ?_⟩
  · simp [SystemResources.memoryUsagePercent, h]
  · simp [SystemResources.memoryUsagePercent, not_lt.mpr h]
  · simp [SystemResources.diskUsagePercent, h]
  · simp [SystemResources.diskUsagePercent, not_lt.mpr h]

/-- Witness for C9: available 2e9 of total 8e9 bytes gives 75 percent;
zero totals give 0 percent. -/
theorem memory_disk_percent_spec_witness :
    resSeventyFive.memoryUsagePercent
        = ((resSeventyFive.totalMemoryBytes - resSeventyFive.availableMemoryBytes)
            / resSeventyFive.totalMemoryBytes) * 100 ∧
    resSeventyFive.memoryUsagePercent = 75 ∧
    resZeroTotal.memoryUsagePercent = 0 ∧
    resZeroTotal.diskUsagePercent = 0 := by
  refine ⟨(memory_disk_percent_spec resSeventyFive).1 (by norm_num [resSeventyFive]),
    ?_,
    (memory_disk_percent_spec resZeroTotal).2.1 (by norm_num [resZeroTotal]),
    (memory_disk_percent_spec resZeroTotal).2.2.2 (by norm_num [resZeroTotal])⟩
  rw [(memory_disk_percent_spec resSeventyFive).1 (by norm_num [resSeventyFive])]
  norm_num [resSeventyFive]

/-- Unfolding of `runOps` on one leading lifecycle call. -/
theorem runOps_cons (op : GlobalOp) (ops : List GlobalOp) (s : GlobalState) :
    runOps (op :: ops) s
      = runOps ops
          (match op with
           | .initCall e n => (initializeLib e n s).2
           | .shutdownCall r => (shutdown r s).2) := rfl

/-- C10: the global latch fires at most once. A first call whose
native initialization fails returns InitializationFailed and leaves
the latch consumed with `INITIALIZED` false; any call after the latch
has fired returns `Ok(())` unchanged whatever the native routines
would report (they are not re-run: the state is untouched and the
result is independent of their status codes); and over any sequence of
further initialize/shutdown calls the library never becomes
initialized. -/
theorem initializeLib_latch :
    (∀ e n : Int, ¬(e = 0 ∧ n = 0) →
      initializeLib e n initialState
        = (.error (.InitializationFailed "Failed to initialize CoreBase components"),
           { onceDone := true, initialized := false })) ∧
    (∀ s : GlobalState, s.onceDone = true → ∀ e n : Int,
      initializeLib e n s = (.ok (), s)) ∧
    (∀ (ops : List GlobalOp) (s : GlobalState), s.onceDone = true →
      s.initialized = false →
      (runOps ops s).onceDone = true ∧ isInitialized (runOps ops s) = false) := by
  refine ⟨?_, ?_, ?_⟩
  · intro e n h
    simp [initializeLib, initialState, h]
  · intro s hs e n
    simp [initializeLib, hs]
  · intro ops
    induction ops with
    | nil =>
      intro s h1 h2
      exact ⟨h1, h2⟩
    | cons op rest ih =>
      intro s h1 h2
      have hstate :
          (match op with
           | GlobalOp.initCall e n => (initializeLib e n s).2
           | GlobalOp.shutdownCall r => (shutdown r s).2) = s := by
        cases op with
        | initCall e n => simp [initializeLib, h1]
        | shutdownCall r => simp [shutdown, h2]
      rw [runOps_cons, hstate]
      exact ih s h1 h2

/-- Witness for C10: first call with a failing native status 1 yields
the error and an uninitialized consumed latch; a later call returns Ok
unchanged; no later call sequence re-initializes. -/
theorem initializeLib_latch_witness :
    initializeLib 1 0 initialState
      = (.error (.InitializationFailed "Failed to initialize CoreBase components"),
         { onceDone := true, initialized := false }) ∧
    initializeLib 0 0 { onceDone := true, initialized := false }
      = (.ok (), { onceDone := true, initialized := false }) ∧
    ((runOps [.initCall 0 0, .shutdownCall 0]
        { onceDone := true, initialized := false }).onceDone = true ∧
      isInitialized (runOps [.initCall 0 0, .shutdownCall 0]
        { onceDone := true, initialized := false }) = false) :=
  ⟨initializeLib_latch.1 1 0 (by decide),
   initializeLib_latch.2.1 _ rfl 0 0,
   initializeLib_latch.2.2 _ _ rfl rfl⟩

/-- C8: the threshold evaluator produces exactly the canonical alert
list: one alert per enabled category whose measured percentage
strictly exceeds its threshold, in the fixed order CPU, memory, disk,
network, GPU; disabled categories and values equal to their threshold
produce none. -/
theorem checkThresholds_spec (m : SystemMonitor) (r : SystemResources) :
    m.checkThresholds r = checkThresholdsSpec m.config r := by
  simp only [SystemMonitor.checkThresholds, checkThresholdsSpec,
    List.filter_cons, List.filter_nil, categoryEnabled, categoryThreshold,
    measuredPercent, Bool.and_eq_true, decide_eq_true_eq]
  by_cases h1 : m.config.enableCpuMonitoring = true
      ∧ r.cpuUsagePercent > m.config.cpuThreshold <;>
  by_cases h2 : m.config.enableMemoryMonitoring = true
      ∧ r.memoryUsagePercent > m.config.memoryThreshold <;>
  by_cases h3 : m.config.enableDiskMonitoring = true
      ∧ r.diskUsagePercent > m.config.diskThreshold <;>
  by_cases h4 : m.config.enableNetworkMonitoring = true
      ∧ r.networkUsagePercent > m.config.networkThreshold <;>
  by_cases h5 : m.config.enableGpuMonitoring = true
      ∧ r.gpuUsagePercent > m.config.gpuThreshold <;>
  simp [h1, h2, h3, h4, h5]

/-- Field-wise view of the summing fold of `get_average_usage`. -/
theorem foldl_avgStep (l : List MonitoringDataPoint) (acc : MonitoringDataPoint) :
    l.foldl avgStep acc =
      { timestamp := acc.timestamp
        cpuUsage := acc.cpuUsage + (l.map MonitoringDataPoint.cpuUsage).sum
        memoryUsage := acc.memoryUsage + (l.map MonitoringDataPoint.memoryUsage).sum
        diskUsage := acc.diskUsage + (l.map MonitoringDataPoint.diskUsage).sum
        networkUsage := acc.networkUsage + (l.map MonitoringDataPoint.networkUsage).sum
        gpuUsage := acc.gpuUsage + (l.map MonitoringDataPoint.gpuUsage).sum } := by
  induction l generalizing acc with
  | nil => simp
  | cons p rest ih => simp [avgStep, ih, add_assoc]

/-- Field-wise view of the maximum fold of `get_peak_usage`. -/
theorem foldl_peakStep (l : List MonitoringDataPoint) (acc : MonitoringDataPoint) :
    l.foldl peakStep acc =
      { timestamp := acc.timestamp
        cpuUsage := (l.map MonitoringDataPoint.cpuUsage).foldl max acc.cpuUsage
        memoryUsage := (l.map MonitoringDataPoint.memoryUsage).foldl max acc.memoryUsage
        diskUsage := (l.map MonitoringDataPoint.diskUsage).foldl max acc.diskUsage
        networkUsage := (l.map MonitoringDataPoint.networkUsage).foldl max acc.networkUsage
        gpuUsage := (l.map MonitoringDataPoint.gpuUsage).foldl max acc.gpuUsage } := by
  induction l generalizing acc with
  | nil => simp
  | cons p rest ih => simp [peakStep, ih]

/-- The seed is below a fold of `max`. -/
theorem le_foldl_max (l : List ℚ) (a : ℚ) : a ≤ l.foldl max a := by
  induction l generalizing a with
  | nil => simp
  | cons x xs ih => exact le_trans (le_max_left a x) (ih (max a x))

/-- Every list element is below a fold of `max`. -/
theorem mem_le_foldl_max (l : List ℚ) (a x : ℚ) :
    x ∈ l → x ≤ l.foldl max a := by
  induction l generalizing a with
  | nil => intro hx; cases hx
  | cons y ys ih =>
    intro hx
    rcases List.mem_cons.mp hx with rfl | h
    · exact le_trans (le_max_right a x) (le_foldl_max ys (max a x))
    · exact ih (max a y) h

/-- A fold of `max` is the seed or one of the list elements. -/
theorem foldl_max_cases (l : List ℚ) (a : ℚ) :
    l.foldl max a = a ∨ l.foldl max a ∈ l := by
  induction l generalizing a with
  | nil => left; rfl
  | cons y ys ih =>
    rw [List.foldl_cons]
    rcases ih (max a y) with h | h
    · rcases max_choice a y with h1 | h1
      · left; rw [h, h1]
      · right; rw [h, h1]; exact List.mem_cons_self _ _
    · right; exact List.mem_cons_of_mem _ h

/-- C7: `get_average_usage` returns none exactly on an empty history;
on a non-empty history it returns a record stamped with the current
time whose every field is the arithmetic mean of that field over the
history. -/
theorem getAverageUsage_spec (now : Nat) (m : SystemMonitor) :
    (m.getAverageUsage now = none ↔ m.history = []) ∧
    (∀ av, m.getAverageUsage now = some av →
      av.timestamp = now ∧
      av.cpuUsage = (m.history.map MonitoringDataPoint.cpuUsage).sum
          / (m.history.length : ℚ) ∧
      av.memoryUsage = (m.history.map MonitoringDataPoint.memoryUsage).sum
          / (m.history.length : ℚ) ∧
      av.diskUsage = (m.history.map MonitoringDataPoint.diskUsage).sum
          / (m.history.length : ℚ) ∧
      av.networkUsage = (m.history.map MonitoringDataPoint.networkUsage).sum
          / (m.history.length : ℚ) ∧
      av.gpuUsage = (m.history.map MonitoringDataPoint.gpuUsage).sum
          / (m.history.length : ℚ)) := by
  cases hh : m.history with
  | nil =>
    refine ⟨by simp [SystemMonitor.getAverageUsage, hh], ?_⟩
    intro av hav
    simp [SystemMonitor.getAverageUsage, hh] at hav
  | cons p rest =>
    refine ⟨by simp [SystemMonitor.getAverageUsage, hh], ?_⟩
    intro av hav
    simp only [SystemMonitor.getAverageUsage, hh, List.isEmpty_cons,
      Bool.false_eq_true, if_false, foldl_avgStep, Option.some.injEq] at hav
    subst hav
    simp

/-- Witness for C7: over the samples (cpu 10, memory 20) and
(cpu 30, memory 40), the average has the current timestamp and every
field equal to the field sum divided by the count (cpu 20, memory 30). -/
theorem getAverageUsage_spec_witness :
    ((MonitoringDataPoint.mk 9 20 30 0 0 0).timestamp = 9 ∧
      (MonitoringDataPoint.mk 9 20 30 0 0 0).cpuUsage
          = (monPair.history.map MonitoringDataPoint.cpuUsage).sum
            / (monPair.history.length : ℚ) ∧
      (MonitoringDataPoint.mk 9 20 30 0 0 0).memoryUsage
          = (monPair.history.map MonitoringDataPoint.memoryUsage).sum
            / (monPair.history.length : ℚ) ∧
      (MonitoringDataPoint.mk 9 20 30 0 0 0).diskUsage
          = (monPair.history.map MonitoringDataPoint.diskUsage).sum
            / (monPair.history.length : ℚ) ∧
      (MonitoringDataPoint.mk 9 20 30 0 0 0).networkUsage
          = (monPair.history.map MonitoringDataPoint.networkUsage).sum
            / (monPair.history.length : ℚ) ∧
      (MonitoringDataPoint.mk 9 20 30 0 0 0).gpuUsage
          = (monPair.history.map MonitoringDataPoint.gpuUsage).sum
            / (monPair.history.length : ℚ)) ∧
    monPair.getAverageUsage 9 = some (MonitoringDataPoint.mk 9 20 30 0 0 0) :=
  ⟨(getAverageUsage_spec 9 monPair).2 (MonitoringDataPoint.mk 9 20 30 0 0 0)
      (by norm_num [SystemMonitor.getAverageUsage, monPair, dpLow, dpHigh,
        MonitoringConfig.default, avgStep]),
   by norm_num [SystemMonitor.getAverageUsage, monPair, dpLow, dpHigh,
     MonitoringConfig.default, avgStep]⟩

/-- C6 counterexample: on a history whose single sample has cpu -1,
`get_peak_usage` reports cpu 0, while the per-field maximum over the
history is -1 — the claim that each field of the peak equals the
per-field maximum over all samples fails. -/
theorem getPeakUsage_counterexample :
    (monNeg.getPeakUsage 5).map MonitoringDataPoint.cpuUsage = some 0 ∧
    monNeg.history.map MonitoringDataPoint.cpuUsage = [-1] ∧
    (monNeg.getPeakUsage 5).map MonitoringDataPoint.cpuUsage ≠ some (-1) := by
  refine ⟨?_, ?_, ?_⟩ <;>
    norm_num [SystemMonitor.getPeakUsage, monNeg, dpNeg,
      MonitoringConfig.default, peakStep]

/-- C6 amended: `get_peak_usage` returns none exactly on an empty
history; on a non-empty history it returns a record whose timestamp is
the current time (not the timestamp of any maximal sample) and whose
every field is the maximum of 0 and the per-field maximum over the
history — an upper bound of the field values that is nonnegative and
is either 0 or attained by a sample. -/
theorem getPeakUsage_amended (now : Nat) (m : SystemMonitor) :
    (m.getPeakUsage now = none ↔ m.history = []) ∧
    (∀ pk, m.getPeakUsage now = some pk →
      pk.timestamp = now ∧
      peakFieldSpec (m.history.map MonitoringDataPoint.cpuUsage) pk.cpuUsage ∧
      peakFieldSpec (m.history.map MonitoringDataPoint.memoryUsage) pk.memoryUsage ∧
      peakFieldSpec (m.history.map MonitoringDataPoint.diskUsage) pk.diskUsage ∧
      peakFieldSpec (m.history.map MonitoringDataPoint.networkUsage) pk.networkUsage ∧
      peakFieldSpec (m.history.map MonitoringDataPoint.gpuUsage) pk.gpuUsage) := by
  cases hh : m.history with
  | nil =>
    refine ⟨by simp [SystemMonitor.getPeakUsage, hh], ?_⟩
    intro pk hpk
    simp [SystemMonitor.getPeakUsage, hh] at hpk
  | cons p rest =>
    refine ⟨by simp [SystemMonitor.getPeakUsage, hh], ?_⟩
    intro pk hpk
    simp only [SystemMonitor.getPeakUsage, hh, List.isEmpty_cons,
      Bool.false_eq_true, if_false, foldl_peakStep, Option.some.injEq] at hpk
    subst hpk
    refine ⟨rfl, ?_, ?_, ?_, ?_, ?_⟩ <;>
      exact ⟨fun x hx => mem_le_foldl_max _ _ _ hx,
        le_foldl_max _ _,
        foldl_max_cases _ _⟩

/-- Witness for C6 amended: over the samples (cpu 10, memory 20) and
(cpu 30, memory 40) the peak carries the current timestamp and each
field satisfies the max-of-0-and-values characterization. -/
theorem getPeakUsage_amended_witness :
    (MonitoringDataPoint.mk 9 30 40 0 0 0).timestamp = 9 ∧
    peakFieldSpec (monPair.history.map MonitoringDataPoint.cpuUsage)
      (MonitoringDataPoint.mk 9 30 40 0 0 0).cpuUsage ∧
    peakFieldSpec (monPair.history.map MonitoringDataPoint.memoryUsage)
      (MonitoringDataPoint.mk 9 30 40 0 0 0).memoryUsage ∧
    peakFieldSpec (monPair.history.map MonitoringDataPoint.diskUsage)
      (MonitoringDataPoint.mk 9 30 40 0 0 0).diskUsage ∧
    peakFieldSpec (monPair.history.map MonitoringDataPoint.networkUsage)
      (MonitoringDataPoint.mk 9 30 40 0 0 0).networkUsage ∧
    peakFieldSpec (monPair.history.map MonitoringDataPoint.gpuUsage)
      (MonitoringDataPoint.mk 9 30 40 0 0 0).gpuUsage :=
  (getPeakUsage_amended 9 monPair).2 (MonitoringDataPoint.mk 9 30 40 0 0 0)
    (by norm_num [SystemMonitor.getPeakUsage, monPair, dpLow, dpHigh,
      MonitoringConfig.default, peakStep])

/-- The front-eviction loop keeps exactly the last `cap` elements. -/
theorem evictFront_eq_drop (cap : Nat) (l : List MonitoringDataPoint) :
    evictFront cap l = l.drop (l.length - cap) := by
  induction l with
  | nil => simp [evictFront]
  | cons p rest ih =>
    simp only [evictFront]
    by_cases h : rest.length + 1 > cap
    · rw [if_pos h, ih]
      have hidx : (p :: rest).length - cap = (rest.length - cap) + 1 := by
        simp only [List.length_cons]; omega
      rw [hidx, List.drop_succ_cons]
    · rw [if_neg h]
      have hidx : (p :: rest).length - cap = 0 := by
        simp only [List.length_cons]; omega
      rw [hidx, List.drop_zero]

/-- The front-eviction loop never leaves more than `cap` elements. -/
theorem evictFront_length_le (cap : Nat) (l : List MonitoringDataPoint) :
    (evictFront cap l).length ≤ cap := by
  rw [evictFront_eq_drop, List.length_drop]
  omega

/-- One `add_to_history` call retains the last `cap` of the appended
history. -/
theorem addToHistory_history (m : SystemMonitor) (r : SystemResources) :
    (m.addToHistory r).history
      = (m.history ++ [MonitoringDataPoint.fromResources r]).drop
          ((m.history.length + 1) - m.config.historySize) := by
  simp [SystemMonitor.addToHistory, evictFront_eq_drop]

/-- Repeated insertion from a bounded history retains exactly the last
`cap` samples of the whole appended sequence, in arrival order. -/
theorem addAll_history (rs : List SystemResources) :
    ∀ m : SystemMonitor, m.history.length ≤ m.config.historySize →
    (addAll m rs).history
      = (m.history ++ rs.map MonitoringDataPoint.fromResources).drop
          ((m.history.length + rs.length) - m.config.historySize) := by
  induction rs with
  | nil =>
    intro m hm
    have hidx : m.history.length - m.config.historySize = 0 := by omega
    simp [addAll, hidx]
  | cons r rest ih =>
    intro m hm
    have hstep : addAll m (r :: rest) = addAll (m.addToHistory r) rest := rfl
    have hconf : (m.addToHistory r).config = m.config := rfl
    have hlen : (m.addToHistory r).history.length ≤ m.config.historySize := by
      rw [SystemMonitor.addToHistory]
      exact evictFront_length_le _ _
    rw [hstep, ih (m.addToHistory r) (by rw [hconf]; exact hlen), hconf,
      addToHistory_history]
    have hle : (m.history.length + 1) - m.config.historySize
        ≤ (m.history ++ [MonitoringDataPoint.fromResources r]).length := by
      simp only [List.length_append, List.length_singleton]
      omega
    rw [← List.drop_append_of_le_length hle, List.drop_drop,
      List.length_drop, List.append_assoc, List.singleton_append]
    congr 1
    simp only [List.length_append, List.length_cons, List.length_nil,
      List.length_map]
    omega

/-- C5: the history never exceeds the configured capacity after an
append (`add_to_history`, and `get_system_resources` which performs
it), a reconfiguration (`set_config`) or a clear; and eviction is
FIFO: inserting a sequence of samples into an empty history retains
exactly the last `capacity` of them in arrival order, oldest first. -/
theorem history_capacity_fifo :
    (∀ (m : SystemMonitor) (r : SystemResources),
      (m.addToHistory r).history.length ≤ m.config.historySize) ∧
    (∀ (m : SystemMonitor) (c : MonitoringConfig),
      (m.setConfig c).history.length ≤ c.historySize) ∧
    (∀ m : SystemMonitor, m.clearHistory.history.length ≤ m.config.historySize) ∧
    (∀ (sam : NativeSampler) (now : Nat) (m : SystemMonitor),
      m.initialized = true →
      (m.getSystemResources sam now).2.history.length ≤ m.config.historySize) ∧
    (∀ (m : SystemMonitor) (rs : List SystemResources), m.history = [] →
      (addAll m rs).history
        = (rs.map MonitoringDataPoint.fromResources).drop
            (rs.length - m.config.historySize)) := by
  have hadd : ∀ (m : SystemMonitor) (r : SystemResources),
      (m.addToHistory r).history.length ≤ m.config.historySize := by
    intro m r
    rw [SystemMonitor.addToHistory]
    exact evictFront_length_le _ _
  refine ⟨hadd, ?_, ?_, ?_, ?_⟩
  · intro m c
    rw [SystemMonitor.setConfig]
    exact evictFront_length_le _ _
  · intro m
    simp [SystemMonitor.clearHistory]
  · intro sam now m hinit
    simp only [SystemMonitor.getSystemResources, hinit, Bool.not_true,
      Bool.false_eq_true, if_false]
    exact hadd _ _
  · intro m rs hnil
    rw [addAll_history rs m (by rw [hnil]; simp)]
    rw [hnil]
    simp

/-- Witness for C5: concrete instances of every conjunct — appends,
reconfiguration, clear, a successful sample, and FIFO retention of two
samples inserted into a fresh monitor. -/
theorem history_capacity_fifo_witness :
    (monPair.addToHistory resSeventyFive).history.length
        ≤ monPair.config.historySize ∧
    (monPair.setConfig MonitoringConfig.default).history.length
        ≤ MonitoringConfig.default.historySize ∧
    monPair.clearHistory.history.length ≤ monPair.config.historySize ∧
    (monPair.getSystemResources samFixture 7).2.history.length
        ≤ monPair.config.historySize ∧
    (addAll SystemMonitor.new [resSeventyFive, resZeroTotal]).history
      = ([resSeventyFive, resZeroTotal].map
          MonitoringDataPoint.fromResources).drop
          ([resSeventyFive, resZeroTotal].length
            - SystemMonitor.new.config.historySize) :=
  ⟨history_capacity_fifo.1 monPair resSeventyFive,
   history_capacity_fifo.2.1 monPair MonitoringConfig.default,
   history_capacity_fifo.2.2.1 monPair,
   history_capacity_fifo.2.2.2.1 samFixture 7 monPair rfl,
   history_capacity_fifo.2.2.2.2 SystemMonitor.new
     [resSeventyFive, resZeroTotal] rfl⟩

/-- C2: `close_connection` returns ResourceNotFound and leaves the
manager unchanged when the id is not registered; when it is registered
and the transport close fails (non-zero status), it returns the
transport's NetworkError and the entry remains (no removal is
attempted) — more generally any close failure leaves the registry
unchanged and is propagated; when the transport close succeeds the
entry is removed. -/
theorem closeConnection_spec (t : NativeTransport) (connectionId : String)
    (mgr : NetworkManager) :
    (lookupKey connectionId mgr.connections = none →
      NetworkManager.closeConnection t connectionId mgr
        = (.error (.ResourceNotFound ("Connection not found: " ++ connectionId)),
           mgr)) ∧
    (∀ c, lookupKey connectionId mgr.connections = some c →
      toCString c.id = .ok c.id → t.closeConnection c.id ≠ 0 →
      NetworkManager.closeConnection t connectionId mgr
        = (.error (.NetworkError "Failed to close connection"), mgr)) ∧
    (∀ c e, lookupKey connectionId mgr.connections = some c →
      NetworkConnection.close t c = .error e →
      NetworkManager.closeConnection t connectionId mgr = (.error e, mgr)) ∧
    (∀ c, lookupKey connectionId mgr.connections = some c →
      NetworkConnection.close t c = .ok () →
      NetworkManager.closeConnection t connectionId mgr
        = (.ok (), { mgr with connections := eraseKey connectionId mgr.connections })) := by
  refine ⟨?_, ?_, ?_, ?_⟩
  · intro h
    simp [NetworkManager.closeConnection, h]
  · intro c hc htc hst
    simp [NetworkManager.closeConnection, hc, NetworkConnection.close, htc, hst]
  · intro c e hc hcl
    simp [NetworkManager.closeConnection, hc, hcl]
  · intro c hc hcl
    simp [NetworkManager.closeConnection, hc, hcl]

/-- Witness for C2: on a one-connection registry, closing an unknown
id is ResourceNotFound with the registry untouched; closing "a"
through a failing transport returns NetworkError and keeps the entry;
closing "a" through a succeeding transport removes it. -/
theorem closeConnection_spec_witness :
    NetworkManager.closeConnection tCloseFail "z" mgrOne
      = (.error (.ResourceNotFound ("Connection not found: " ++ "z")), mgrOne) ∧
    NetworkManager.closeConnection tCloseFail "a" mgrOne
      = (.error (.NetworkError "Failed to close connection"), mgrOne) ∧
    NetworkManager.closeConnection tCreateAlpha "a" mgrOne
      = (.ok (), { mgrOne with connections := eraseKey "a" mgrOne.connections }) :=
  ⟨(closeConnection_spec tCloseFail "z" mgrOne).1 rfl,
   (closeConnection_spec tCloseFail "a" mgrOne).2.1 connAlpha rfl rfl (by decide),
   (closeConnection_spec tCreateAlpha "a" mgrOne).2.2.2 connAlpha rfl rfl⟩

/-- Inserting a key makes it found with the inserted value. -/
theorem lookupKey_insertEntry (k : String) (v : NetworkConnection) :
    ∀ m : ConnMap, lookupKey k (insertEntry k v m) = some v := by
  intro m
  induction m with
  | nil => simp [insertEntry, lookupKey]
  | cons e rest ih =>
    by_cases h : e.1 = k
    · simp [insertEntry, h, lookupKey]
    · simp [insertEntry, h, lookupKey, ih]

/-- C3: with an initialized manager and a marshallable host,
`create_connection` on a transport that returns an id registers
`Connection { id, config, state = Connected }` under that id and
returns a copy of it, so an immediately following `get_connection`
returns the same connection, in state Connected; on a transport that
returns null it returns NetworkError and leaves the registry
unmodified. -/
theorem createConnection_spec (t : NativeTransport) (config : NetworkConfig)
    (mgr : NetworkManager) (hinit : mgr.initialized = true)
    (hhost : toCString config.host = .ok config.host) :
    (t.createConnection config.host config.port config.protocol = none →
      NetworkManager.createConnection t config mgr
        = (.error (.NetworkError "Failed to create network connection"), mgr)) ∧
    (∀ connectionId,
      t.createConnection config.host config.port config.protocol
          = some connectionId →
      NetworkManager.createConnection t config mgr
          = (.ok { id := connectionId, config := config, state := .Connected },
             { mgr with connections := (insertEntry connectionId
                 { id := connectionId, config := config, state := .Connected }
                 mgr.connections) }) ∧
      (NetworkManager.createConnection t config mgr).2.getConnection connectionId
          = .ok { id := connectionId, config := config, state := .Connected } ∧
      (NetworkConnection.mk connectionId config .Connected).state = .Connected) := by
  constructor
  · intro h
    simp [NetworkManager.createConnection, hinit, hhost, h]
  · intro connectionId h
    have hcreate : NetworkManager.createConnection t config mgr
        = (.ok { id := connectionId, config := config, state := .Connected },
           { mgr with connections := (insertEntry connectionId
               { id := connectionId, config := config, state := .Connected }
               mgr.connections) }) := by
      simp [NetworkManager.createConnection, hinit, hhost, h]
    refine ⟨hcreate, ?_, rfl⟩
    rw [hcreate]
    simp [NetworkManager.getConnection, lookupKey_insertEntry]

/-- Witness for C3: from the empty initialized manager, a null
transport response yields NetworkError and no registration, and a
transport returning id "a" registers and returns the Connected
connection, found again by `get_connection`. -/
theorem createConnection_spec_witness :
    (NetworkManager.createConnection tCreateNone cfgFixture mgrEmpty
      = (.error (.NetworkError "Failed to create network connection"), mgrEmpty)) ∧
    (NetworkManager.createConnection tCreateAlpha cfgFixture mgrEmpty
        = (.ok { id := "a", config := cfgFixture, state := .Connected },
           { mgrEmpty with connections := (insertEntry "a"
               { id := "a", config := cfgFixture, state := .Connected }
               mgrEmpty.connections) }) ∧
      (NetworkManager.createConnection tCreateAlpha cfgFixture mgrEmpty).2.getConnection "a"
          = .ok { id := "a", config := cfgFixture, state := .Connected } ∧
      (NetworkConnection.mk "a" cfgFixture .Connected).state = .Connected) :=
  ⟨(createConnection_spec tCreateNone cfgFixture mgrEmpty rfl rfl).1 rfl,
   (createConnection_spec tCreateAlpha cfgFixture mgrEmpty rfl rfl).2 "a" rfl⟩

/-- The failed-id collecting fold of `broadcast_message` computes the
ids of the connections whose send fails, appended to the seed. -/
theorem broadcast_foldl (t : NativeTransport) (msg : NetworkMessage) :
    ∀ (conns : List NetworkConnection) (acc : List String),
    conns.foldl
        (fun failed c =>
          match NetworkConnection.send t c msg with
          | .ok _ => failed
          | .error _ => failed ++ [c.id]) acc
      = acc ++ (conns.filter (sendFails t msg)).map NetworkConnection.id := by
  intro conns
  induction conns with
  | nil => intro acc; simp
  | cons c rest ih =>
    intro acc
    rw [List.foldl_cons]
    rcases hs : NetworkConnection.send t c msg with e | u
    · simp [hs, ih, sendFails, List.filter_cons]
    · simp [hs, ih, sendFails, List.filter_cons]

/-- C4: `broadcast_message` returns Ok with exactly the ids (in
registry order) of the registered connections whose send failed, never
aborting early, and leaves the manager — in particular its registry —
unchanged. -/
theorem broadcastMessage_spec (t : NativeTransport) (msg : NetworkMessage)
    (mgr : NetworkManager) :
    NetworkManager.broadcastMessage t msg mgr
      = (.ok (((mgr.connections.map Prod.snd).filter (sendFails t msg)).map
            NetworkConnection.id), mgr) := by
  simp only [NetworkManager.broadcastMessage]
  rw [broadcast_foldl]
  simp

/-- C1 counterexample: with one registered connection whose transport
close fails, `close_all_connections` returns Ok but leaves the count
at 1, not 0 — a failed individual close keeps its entry registered, so
the claim that the count is 0 regardless of close failures is false. -/
theorem closeAll_counterexample :
    mgrOne.connectionCount = 1 ∧
    (NetworkManager.closeAllConnections tCloseFail mgrOne).1 = .ok () ∧
    (NetworkManager.closeAllConnections tCloseFail mgrOne).2.connectionCount = 1 :=
  ⟨rfl, rfl, rfl⟩

/-- State component of one `close_connection` call, projected to the
connection map. -/
theorem closeConnection_snd (t : NativeTransport) (cid : String)
    (mgr : NetworkManager) :
    (NetworkManager.closeConnection t cid mgr).2
      = { mgr with connections := mapCloseStep t cid mgr.connections } := by
  rcases h : lookupKey cid mgr.connections with _ | c
  · simp [NetworkManager.closeConnection, mapCloseStep, h]
  · rcases hc : NetworkConnection.close t c with e | u <;>
      simp [NetworkManager.closeConnection, mapCloseStep, h, hc]

/-- State component of the `close_all_connections` loop, projected to
the connection map. -/
theorem closeAll_snd (t : NativeTransport) (ids : List String) :
    ∀ mgr : NetworkManager,
    ids.foldl (fun acc cid => (NetworkManager.closeConnection t cid acc).2) mgr
      = { mgr with connections := mapCloseFold t ids mgr.connections } := by
  induction ids with
  | nil => intro mgr; simp [mapCloseFold]
  | cons i rest ih =>
    intro mgr
    rw [List.foldl_cons, closeConnection_snd, ih]
    simp [mapCloseFold]

/-- A lookup skips a head entry with a different key. -/
theorem lookupKey_cons_ne (k cid : String) (c : NetworkConnection) (s : ConnMap)
    (h : k ≠ cid) : lookupKey cid ((k, c) :: s) = lookupKey cid s := by
  simp [lookupKey, h]

/-- An erase keeps a head entry with a different key. -/
theorem eraseKey_cons_ne (k cid : String) (c : NetworkConnection) (s : ConnMap)
    (h : k ≠ cid) : eraseKey cid ((k, c) :: s) = (k, c) :: eraseKey cid s := by
  simp [eraseKey, h]

/-- Closing an id leaves a head entry with a different key in place. -/
theorem mapCloseStep_cons_ne (t : NativeTransport) (cid k : String)
    (c : NetworkConnection) (s : ConnMap) (h : k ≠ cid) :
    mapCloseStep t cid ((k, c) :: s) = (k, c) :: mapCloseStep t cid s := by
  simp only [mapCloseStep, lookupKey_cons_ne k cid c s h]
  rcases h2 : lookupKey cid s with _ | c2
  · simp
  · rcases hc : NetworkConnection.close t c2 with e | u
    · simp [hc]
    · simp [hc, eraseKey_cons_ne k cid c s h]

/-- Closing a list of ids that avoids the head key leaves the head
entry in place. -/
theorem mapCloseFold_cons_notmem (t : NativeTransport) (ids : List String) :
    ∀ (k : String) (c : NetworkConnection) (s : ConnMap), k ∉ ids →
    mapCloseFold t ids ((k, c) :: s) = (k, c) :: mapCloseFold t ids s := by
  induction ids with
  | nil => intro k c s _; rfl
  | cons i rest ih =>
    intro k c s hk
    have hne : k ≠ i := fun he => hk (he ▸ List.mem_cons_self i rest)
    simp only [mapCloseFold, List.foldl_cons]
    rw [mapCloseStep_cons_ne t i k c s hne]
    exact ih k c (mapCloseStep t i s) (fun hm => hk (List.mem_cons_of_mem _ hm))

/-- Closing every current key (with distinct keys) retains exactly the
entries whose transport close failed. -/
theorem mapCloseFold_keys_filter (t : NativeTransport) :
    ∀ s : ConnMap, (s.map Prod.fst).Nodup →
    mapCloseFold t (s.map Prod.fst) s
      = s.filter (fun e => !closeSucceeds t e.2) := by
  intro s
  induction s with
  | nil => intro _; rfl
  | cons e s' ih =>
    intro hnd
    obtain ⟨k, c⟩ := e
    rw [List.map_cons] at hnd
    have hk : k ∉ s'.map Prod.fst := (List.nodup_cons.mp hnd).1
    have hnd' : (s'.map Prod.fst).Nodup := (List.nodup_cons.mp hnd).2
    rw [List.map_cons]
    simp only [mapCloseFold, List.foldl_cons]
    rcases hc : NetworkConnection.close t c with e1 | u
    · -- transport close fails: the head entry stays
      have hstep : mapCloseStep t k ((k, c) :: s') = (k, c) :: s' := by
        simp [mapCloseStep, lookupKey, hc]
      rw [hstep]
      have hfold := mapCloseFold_cons_notmem t (s'.map Prod.fst) k c s' hk
      simp only [mapCloseFold] at hfold
      rw [hfold]
      have hfail : closeSucceeds t c = false := by simp [closeSucceeds, hc]
      simp only [mapCloseFold] at ih
      rw [ih hnd', List.filter_cons]
      simp [hfail]
    · -- transport close succeeds: the head entry is removed
      have hstep : mapCloseStep t k ((k, c) :: s') = s' := by
        simp [mapCloseStep, lookupKey, hc, eraseKey]
      rw [hstep]
      have hok : closeSucceeds t c = true := by simp [closeSucceeds, hc]
      simp only [mapCloseFold] at ih
      rw [ih hnd', List.filter_cons]
      simp [hok]

/-- C1 amended: `close_all_connections` always returns Ok and never
aborts early, but removal happens per entry only when that entry's
transport close succeeds: with distinct registered ids it retains
exactly the entries whose transport close failed, and the count is 0
exactly in the case that every individual close succeeded. -/
theorem closeAll_amended (t : NativeTransport) (mgr : NetworkManager)
    (hnd : (mgr.connections.map Prod.fst).Nodup) :
    (NetworkManager.closeAllConnections t mgr).1 = .ok () ∧
    (NetworkManager.closeAllConnections t mgr).2.connections
      = mgr.connections.filter (fun e => !closeSucceeds t e.2) ∧
    ((∀ e ∈ mgr.connections, closeSucceeds t e.2 = true) →
      (NetworkManager.closeAllConnections t mgr).2.connectionCount = 0) := by
  have h2 : (NetworkManager.closeAllConnections t mgr).2.connections
      = mgr.connections.filter (fun e => !closeSucceeds t e.2) := by
    simp only [NetworkManager.closeAllConnections]
    rw [closeAll_snd]
    exact mapCloseFold_keys_filter t mgr.connections hnd
  refine ⟨rfl, h2, ?_⟩
  intro hall
  simp only [NetworkManager.connectionCount, h2]
  rw [List.length_eq_zero, List.filter_eq_nil_iff]
  intro a ha
  simp [hall a ha]

/-- Witness for C1 amended: on the two-connection registry with an
always-succeeding transport close, `close_all_connections` returns Ok
and empties the registry. -/
theorem closeAll_amended_witness :
    (NetworkManager.closeAllConnections tCreateAlpha mgrPair).1 = .ok () ∧
    (NetworkManager.closeAllConnections tCreateAlpha mgrPair).2.connectionCount = 0 :=
  ⟨(closeAll_amended tCreateAlpha mgrPair (by decide)).1,
   (closeAll_amended tCreateAlpha mgrPair (by decide)).2.2 (by decide)⟩

end CoreBase
